import Mathlib

/-!
Shallow embedding of the Vietnam gas-plant ETL pipeline
(`src/clean_data.py`, `src/read_data.py`).

A pandas cell is either a string, a number, or null (`Option.none`).
Numbers are modelled as integers: every behaviour the claims concern
(summation, min/max, ordering, comparison against range bounds, null
handling) is uniform in the numeric domain, and integer cells keep every
definition kernel-computable.  `pd.to_numeric(..., errors="coerce")` is
modelled as keeping numeric cells and coercing everything else to null:
the spreadsheet readers deliver numeric columns as numbers, and a string
in a numeric column is the non-parseable case that coerces to null.
-/

/-- A non-null pandas cell: free text or a numeric value. -/
inductive Cell where
  | str (s : String)
  | num (q : Int)
deriving DecidableEq, Repr

/-- `str(cell)` as Python renders it when joining; strings pass through. -/
def cellToString : Cell → String
  | .str s => s
  | .num q => toString q

/-- A unit row after column selection and renaming (`clean_gas_plant_data`
steps 1-2); numeric columns are typed after the `pd.to_numeric` coercion of
step 3.  `status` stays an `Option Cell` until the normalisation step
rewrites it to a string cell. -/
structure URow where
  id : Option Cell
  unit_id : Option Cell
  plant_name : Option Cell
  plant_name_local : Option Cell
  unit_name : Option Cell
  fuel : Option Cell
  fuel_class : Option Cell
  capacity_mw : Option Int
  status : Option Cell
  technology : Option Cell
  lat : Option Cell
  lon : Option Cell
  city : Option Cell
  province : Option Cell
  region : Option Cell
  start_year : Option Int
  retired_year : Option Int
  planned_retire : Option Int
  owner : Option Cell
  operator : Option Cell
deriving DecidableEq, Repr

/-- A merged plant record: the row shape produced by
`merge_units_to_plants` (one row per plant, plus `num_units`). -/
structure PRow where
  id : Option Cell
  plant_name : Option Cell
  plant_name_local : Option Cell
  city : Option Cell
  province : Option Cell
  region : Option Cell
  lat : Option Cell
  lon : Option Cell
  capacity_mw : Int
  unit_id : String
  unit_name : String
  status : String
  technology : String
  fuel : String
  fuel_class : String
  owner : String
  operator : String
  start_year : Option Int
  retired_year : Option Int
  planned_retire : Option Int
  num_units : Nat
deriving DecidableEq, Repr

/-- Keep the first occurrence of every value, dropping later duplicates:
the semantics of `pandas.Series.unique()` applied to a column (first-seen
order). -/
def dedupFirst {α : Type} [DecidableEq α] : List α → List α
  | [] => []
  | x :: xs => x :: (dedupFirst xs).filter (fun y => y ≠ x)

/-- `", ".join(values)` over cells (with `str()` applied as the source does
for the unit-identifier lists). -/
def joinCells (l : List Cell) : String :=
  String.intercalate ", " (l.map cellToString)

/-- Lexicographic comparison of strings by code point, the order Python
uses when comparing the plant-name strings `groupby` sorts by. -/
def charListLe : List Char → List Char → Bool
  | [], _ => true
  | _ :: _, [] => false
  | a :: as, b :: bs =>
      if a.toNat < b.toNat then true
      else if b.toNat < a.toNat then false
      else charListLe as bs

/-- Ordering used by `groupby`'s default `sort=True` on group keys.
Within a constructor it is the value order; real pandas raises on a
mixed-type key column, which no pipeline input produces, so the
cross-constructor case is fixed arbitrarily. -/
def cellLe : Cell → Cell → Bool
  | .num a, .num b => decide (a ≤ b)
  | .num _, .str _ => true
  | .str _, .num _ => false
  | .str a, .str b => charListLe a.data b.data

/-- `cellLe` as a proposition, for use with `List.insertionSort`. -/
def cellLeP (a b : Cell) : Prop := cellLe a b = true

instance : DecidableRel cellLeP := fun a b => instDecidableEqBool (cellLe a b) true

/-- Sort group keys ascending, as `groupby(..., sort=True)` does. -/
def sortCells (l : List Cell) : List Cell := List.insertionSort cellLeP l

/-- The pandas GroupBy `"first"` reduction: the first **non-null** value of
the column within the group, null only when every value is null. -/
def firstAgg {α : Type} (l : List (Option α)) : Option α := (l.filterMap id).head?

/-- One output row of `merge_units_to_plants` for a single group `g` of
unit rows (in original row order), applying the per-column reducers of the
`agg_dict` built in `src/clean_data.py` lines 37-85, the list-to-string
conversion of lines 91-97, and the `num_units` count of lines 99-101. -/
def aggGroup (g : List URow) : PRow where
  id := firstAgg (g.map (·.id))
  plant_name := firstAgg (g.map (·.plant_name))
  plant_name_local := firstAgg (g.map (·.plant_name_local))
  city := firstAgg (g.map (·.city))
  province := firstAgg (g.map (·.province))
  region := firstAgg (g.map (·.region))
  lat := firstAgg (g.map (·.lat))
  lon := firstAgg (g.map (·.lon))
  capacity_mw := (g.filterMap (·.capacity_mw)).sum
  unit_id := joinCells (dedupFirst (g.filterMap (·.unit_id)))
  unit_name := joinCells (dedupFirst (g.filterMap (·.unit_name)))
  status := joinCells (dedupFirst (g.filterMap (·.status)))
  technology := joinCells (dedupFirst (g.filterMap (·.technology)))
  fuel := joinCells (dedupFirst (g.filterMap (·.fuel)))
  fuel_class := joinCells (dedupFirst (g.filterMap (·.fuel_class)))
  owner := joinCells (dedupFirst (g.filterMap (·.owner)))
  operator := joinCells (dedupFirst (g.filterMap (·.operator)))
  start_year := (g.filterMap (·.start_year)).min?
  retired_year := (g.filterMap (·.retired_year)).max?
  planned_retire := (g.filterMap (·.planned_retire)).max?
  num_units := g.length

/-- Grouping-key resolution of `merge_units_to_plants` lines 30-34: group
by `plant_name`, falling back to `id` when the `plant_name` column is
entirely null (the column itself is always present in pipeline frames). -/
def resolvedKeyFn (rows : List URow) : URow → Option Cell :=
  if rows.all (fun r => decide (r.plant_name = none)) then (·.id) else (·.plant_name)

/-- The rows of `rows` falling in the group keyed by `k` (rows whose key
is null belong to no group: `groupby` drops them). -/
def groupOf (kf : URow → Option Cell) (rows : List URow) (k : Cell) : List URow :=
  rows.filter (fun r => decide (kf r = some k))

/-- `groupby(group_key, as_index=False).agg(agg_dict)` followed by the
unit-count merge: one record per distinct non-null key, keys sorted
ascending, each aggregated from its group's rows in original order. -/
def mergeCore (kf : URow → Option Cell) (rows : List URow) : List PRow :=
  (sortCells (dedupFirst (rows.filterMap kf))).map (fun k => aggGroup (groupOf kf rows k))

/-- `merge_units_to_plants` (`src/clean_data.py` lines 8-106). -/
def merge_units_to_plants (rows : List URow) : List PRow :=
  if rows.isEmpty then [] else mergeCore (resolvedKeyFn rows) rows

/-! ## The Cleaner (`clean_gas_plant_data`) -/

/-- The raw table handed to the Cleaner: a column schema plus rows, each
row a lookup from column name to cell (`none` = NaN / absent value). -/
structure RawFrame where
  cols : List String
  rows : List (String → Option Cell)

/-- The `columns` mapping of `config.yaml`: for each canonical field, the
source column name it is read from.  The config file lives outside this
repository, so the mapping is a parameter. -/
structure ColsCfg where
  id : String
  unit_id : String
  plant_name : String
  plant_name_local : String
  unit_name : String
  fuel : String
  fuel_class : String
  capacity_mw : String
  status : String
  technology : String
  lat : String
  lon : String
  city : String
  province : String
  region : String
  start_year : String
  retired_year : String
  planned_retire : String
  owner : String
  operator : String

/-- The ordered column selection of `clean_gas_plant_data` step 1. -/
def selectedColumns (cfg : ColsCfg) : List String :=
  [cfg.id, cfg.unit_id, cfg.plant_name, cfg.plant_name_local, cfg.unit_name,
   cfg.fuel, cfg.fuel_class, cfg.capacity_mw, cfg.status, cfg.technology,
   cfg.lat, cfg.lon, cfg.city, cfg.province, cfg.region,
   cfg.start_year, cfg.retired_year, cfg.planned_retire, cfg.owner, cfg.operator]

/-- `pd.to_numeric(col, errors="coerce")` on one cell. -/
def cellToNum : Option Cell → Option Int
  | some (.num q) => some q
  | _ => none

/-- Column selection, renaming and numeric coercion fused rowwise
(`clean_gas_plant_data` steps 1-3; the pandas steps are columnwise and
commute with per-row evaluation). -/
def rawToURow (cfg : ColsCfg) (r : String → Option Cell) : URow where
  id := r cfg.id
  unit_id := r cfg.unit_id
  plant_name := r cfg.plant_name
  plant_name_local := r cfg.plant_name_local
  unit_name := r cfg.unit_name
  fuel := r cfg.fuel
  fuel_class := r cfg.fuel_class
  capacity_mw := cellToNum (r cfg.capacity_mw)
  status := r cfg.status
  technology := r cfg.technology
  lat := r cfg.lat
  lon := r cfg.lon
  city := r cfg.city
  province := r cfg.province
  region := r cfg.region
  start_year := cellToNum (r cfg.start_year)
  retired_year := cellToNum (r cfg.retired_year)
  planned_retire := cellToNum (r cfg.planned_retire)
  owner := r cfg.owner
  operator := r cfg.operator

/-- `Series.between(lo, hi)` on one cell (inclusive; null compares false;
pipeline coordinates are numeric cells). -/
def cellInRange (o : Option Cell) (lo hi : Int) : Bool :=
  match o with
  | some (.num q) => decide (lo ≤ q) && decide (q ≤ hi)
  | _ => false

/-- Python's `str()` of a cell as `astype(str)` applies it: NaN renders as
the string `"nan"`. -/
def statusToPyStr : Option Cell → String
  | none => "nan"
  | some (.str s) => s
  | some (.num q) => toString q

/-- Python `str.strip()`: drop leading and trailing whitespace. -/
def strTrim (s : String) : String :=
  ⟨((s.data.dropWhile Char.isWhitespace).reverse.dropWhile Char.isWhitespace).reverse⟩

/-- Python `str.lower()` on the ASCII range. -/
def strLower (s : String) : String := ⟨s.data.map Char.toLower⟩

/-- `str.replace(" ", "_")`: the pattern is the single space character,
so replacement is a character map. -/
def strUnderscore (s : String) : String :=
  ⟨s.data.map (fun c => if c = ' ' then '_' else c)⟩

/-- Status normalisation of `clean_gas_plant_data` step 5: strip,
lowercase, spaces to underscores. -/
def pyNormalize (s : String) : String :=
  strUnderscore (strLower (strTrim s))

/-- Rewrite the status column as `astype(str).str.strip().str.lower()
.str.replace(" ", "_")` does. -/
def normalizeStatusRow (r : URow) : URow :=
  { r with status := some (.str (pyNormalize (statusToPyStr r.status))) }

/-- `drop_duplicates(subset=["id", "unit_id"])`: keep the first row for
each `(id, unit_id)` pair (pandas treats two NaNs as equal here). -/
def dedupUnits (seen : List (Option Cell × Option Cell)) : List URow → List URow
  | [] => []
  | r :: rs =>
      if (r.id, r.unit_id) ∈ seen then dedupUnits seen rs
      else r :: dedupUnits ((r.id, r.unit_id) :: seen) rs

/-- The status keep-list of `clean_gas_plant_data` lines 220-224. -/
def keep_statuses : List String :=
  ["operating", "construction", "pre-construction", "announced"]

/-- `df_clean["status"].isin(keep_statuses)` on one row. -/
def keepRow (r : URow) : Bool :=
  match r.status with
  | some (.str s) => decide (s ∈ keep_statuses)
  | _ => false

/-- Steps 0 and 3-7 of `clean_gas_plant_data` applied to the projected
rows: country filter, coordinate dropna and range check, status
normalisation, `(id, unit_id)` dedup, keep-list filter. -/
def cleanUnits (cfg : ColsCfg) (country : String) (f : RawFrame) : List URow :=
  let rows0 := f.rows.filter (fun r => decide (r "Country/Area" = some (.str country)))
  let rows1 := rows0.map (rawToURow cfg)
  let rows2 := rows1.filter (fun r => r.lat.isSome && r.lon.isSome)
  let rows3 := rows2.filter
    (fun r => cellInRange r.lat (-90) 90 && cellInRange r.lon (-180) 180)
  let rows4 := rows3.map normalizeStatusRow
  let rows5 := dedupUnits [] rows4
  rows5.filter keepRow

/-- `clean_gas_plant_data` (`src/clean_data.py` lines 110-232).  Selecting
a column absent from the frame raises a pandas `KeyError`, modelled as
`Except.error`; the country-column access at line 129 raises first.  The
function ends by calling `merge_units_to_plants`, so its value is the
merged plant table.  (The stray `breakpoint()` calls suspend execution in
a debugger but compute nothing, and are not modelled.) -/
def clean_gas_plant_data (cfg : ColsCfg) (country : String) (f : RawFrame) :
    Except String (List PRow) :=
  if "Country/Area" ∈ f.cols then
    if (selectedColumns cfg).all (fun c => decide (c ∈ f.cols)) then
      .ok (merge_units_to_plants (cleanUnits cfg country f))
    else .error "KeyError: columns not in index"
  else .error "KeyError: Country/Area"

/-! ## The raw-file reader (`_read_gem_file`) -/

/-- The concrete reader `_read_gem_file` dispatches to. -/
inductive Reader where
  | excel
  | csv
deriving DecidableEq, Repr

/-- Failure modes of the raw-file reader; an unrecognised extension raises
(`ValueError` in the source, the spec's `UnsupportedFormatError`). -/
inductive ReadError where
  | unsupportedFormat (suffix : String)
deriving DecidableEq, Repr

/-- `_read_gem_file` (`src/read_data.py` lines 8-19), as a function of the
path's suffix (`Path.suffix`). -/
def read_gem_file (suffix : String) : Except ReadError Reader :=
  if suffix ∈ [".xlsx", ".xls"] then .ok .excel
  else if suffix ∈ [".csv"] then .ok .csv
  else .error (.unsupportedFormat suffix)

/-! ## Derived notions and concrete instances -/

/-- The row invariant established by the cleaning steps: coordinates
survived the dropna/range filters, the status survived the keep-list
filter. -/
def GoodRow (r : URow) : Prop :=
  r.lat.isSome ∧ r.lon.isSome ∧ ∃ s, r.status = some (.str s) ∧ s ∈ keep_statuses

/-- The grouping-key value of an output record: the `id` column under the
fallback (all plant names null), the `plant_name` column otherwise. -/
def outKeySel (rows : List URow) (p : PRow) : Option Cell :=
  if rows.all (fun r => decide (r.plant_name = none)) then p.id else p.plant_name

/-- Ascending key order lifted to the (always non-null) key column of the
output. -/
def optCellLe (a b : Option Cell) : Prop :=
  ∃ x y, a = some x ∧ b = some y ∧ cellLeP x y

/-- A concrete column mapping used for concrete runs of the pipeline. -/
def cfg0 : ColsCfg where
  id := "GEM plant ID"
  unit_id := "GEM unit ID"
  plant_name := "Plant name"
  plant_name_local := "Plant name local"
  unit_name := "Unit name"
  fuel := "Fuel"
  fuel_class := "Fuel class"
  capacity_mw := "Capacity (MW)"
  status := "Status"
  technology := "Technology"
  lat := "Latitude"
  lon := "Longitude"
  city := "City"
  province := "Province"
  region := "Region"
  start_year := "Start year"
  retired_year := "Retired year"
  planned_retire := "Planned retire"
  owner := "Owner"
  operator := "Operator"

/-- Full schema for `cfg0` frames. -/
def allCols : List String := "Country/Area" :: selectedColumns cfg0

/-- Build a raw row from an association list of populated cells. -/
def mkRow (l : List (String × Cell)) : String → Option Cell :=
  fun c => (l.find? (fun p => decide (p.1 = c))).map (·.2)

/-- Scenario row: `{id=1, unit=A, capacity=100, status="Operating"}`. -/
def rowA : String → Option Cell := mkRow
  [("Country/Area", .str "Vietnam"), ("GEM plant ID", .num 1), ("GEM unit ID", .str "A"),
   ("Capacity (MW)", .num 100), ("Status", .str "Operating"),
   ("Latitude", .num 10), ("Longitude", .num 106)]

/-- Scenario row: `{id=1, unit=B, capacity=50, status="construction"}`. -/
def rowB : String → Option Cell := mkRow
  [("Country/Area", .str "Vietnam"), ("GEM plant ID", .num 1), ("GEM unit ID", .str "B"),
   ("Capacity (MW)", .num 50), ("Status", .str "construction"),
   ("Latitude", .num 10), ("Longitude", .num 106)]

/-- The two-unit scenario input. -/
def f4 : RawFrame := ⟨allCols, [rowA, rowB]⟩

/-- Plant P, unit A, operating. -/
def rowP1 : String → Option Cell := mkRow
  [("Country/Area", .str "Vietnam"), ("GEM plant ID", .num 1), ("GEM unit ID", .str "A"),
   ("Plant name", .str "P"), ("Capacity (MW)", .num 100), ("Status", .str "Operating"),
   ("Latitude", .num 10), ("Longitude", .num 106)]

/-- Plant P, unit B, construction. -/
def rowP2 : String → Option Cell := mkRow
  [("Country/Area", .str "Vietnam"), ("GEM plant ID", .num 1), ("GEM unit ID", .str "B"),
   ("Plant name", .str "P"), ("Capacity (MW)", .num 50), ("Status", .str "construction"),
   ("Latitude", .num 10), ("Longitude", .num 106)]

/-- Plant Q, whose single unit is literally named `"A, B"`. -/
def rowQ : String → Option Cell := mkRow
  [("Country/Area", .str "Vietnam"), ("GEM plant ID", .num 1), ("GEM unit ID", .str "A, B"),
   ("Plant name", .str "Q"), ("Capacity (MW)", .num 30), ("Status", .str "operating"),
   ("Latitude", .num 11), ("Longitude", .num 107)]

/-- Input on which the output of the Cleaner has a joined status outside
the keep-list and two records sharing an `(id, unit_id)` pair. -/
def f1 : RawFrame := ⟨allCols, [rowP1, rowP2, rowQ]⟩

/-- A single-row frame. -/
def fW1 : RawFrame := ⟨allCols, [rowA]⟩

/-- The records the Cleaner returns on `fW1`. -/
def outW1 : List PRow :=
  match clean_gas_plant_data cfg0 "Vietnam" fW1 with
  | .ok l => l
  | .error _ => []

/-- A frame with the full schema and no rows. -/
def fEmpty : RawFrame := ⟨allCols, []⟩

/-- A non-empty frame missing the configured `id` source column. -/
def fBad : RawFrame := ⟨"Country/Area" :: (selectedColumns cfg0).tail, [rowA]⟩

/-- An all-null unit row, for building Aggregator inputs by update. -/
def uNone : URow where
  id := none
  unit_id := none
  plant_name := none
  plant_name_local := none
  unit_name := none
  fuel := none
  fuel_class := none
  capacity_mw := none
  status := none
  technology := none
  lat := none
  lon := none
  city := none
  province := none
  region := none
  start_year := none
  retired_year := none
  planned_retire := none
  owner := none
  operator := none

/-- Two units of plant G, one with null capacity. -/
def rows3w : List URow :=
  [{ uNone with plant_name := some (.str "G"), unit_id := some (.str "1"),
                 capacity_mw := some 10 },
   { uNone with plant_name := some (.str "G"), unit_id := some (.str "2"),
                 capacity_mw := none }]

/-- The record the Aggregator emits for `rows3w`. -/
def p3w : PRow := (merge_units_to_plants rows3w).getD 0 (aggGroup [])

/-- Plant names first seen in the order b, a. -/
def rows5c : List URow :=
  [{ uNone with plant_name := some (.str "b") },
   { uNone with plant_name := some (.str "a") }]

/-- Group whose first row has a null city and whose second row has
city X. -/
def rows6c : List URow :=
  [{ uNone with plant_name := some (.str "P"), unit_id := some (.str "u1"), city := none },
   { uNone with plant_name := some (.str "P"), unit_id := some (.str "u2"),
                 city := some (.str "X") }]

/-- A one-row group for plant W. -/
def rows6w : List URow :=
  [{ uNone with plant_name := some (.str "W"), city := some (.str "C") }]

/-- The record the Aggregator emits for `rows6w`. -/
def p6w : PRow := (merge_units_to_plants rows6w).getD 0 (aggGroup [])

/-- Two units of plant Y with mixed year data. -/
def rows7w : List URow :=
  [{ uNone with plant_name := some (.str "Y"), unit_id := some (.str "1"),
                 start_year := some 2000, retired_year := none,
                 planned_retire := some 2040 },
   { uNone with plant_name := some (.str "Y"), unit_id := some (.str "2"),
                 start_year := some 1995, retired_year := some 2030,
                 planned_retire := none }]

/-- The record the Aggregator emits for `rows7w`. -/
def p7w : PRow := (merge_units_to_plants rows7w).getD 0 (aggGroup [])

/-- Three unit rows over two plants. -/
def rows8w : List URow :=
  [{ uNone with plant_name := some (.str "V"), unit_id := some (.str "1") },
   { uNone with plant_name := some (.str "V"), unit_id := some (.str "2") },
   { uNone with plant_name := some (.str "T"), unit_id := some (.str "1") }]

/-- The first record the Aggregator emits for `rows8w`. -/
def p8w : PRow := (merge_units_to_plants rows8w).getD 0 (aggGroup [])

/-- A row carrying the grouping key Z. -/
def uGoodZ : URow := { uNone with plant_name := some (.str "Z"), capacity_mw := some 5 }

/-- A row whose resolved grouping key (plant name) is null. -/
def uNullKey : URow := { uNone with id := some (.num 9), capacity_mw := some 7 }

/-- Aggregator input with one null-key row. -/
def rows10w : List URow := [uGoodZ, uNullKey]

/-! ## Helper lemmas -/

theorem dedupFirst_mem {α : Type} [DecidableEq α] (x : α) :
    ∀ (l : List α), x ∈ dedupFirst l ↔ x ∈ l
  | [] => by simp [dedupFirst]
  | y :: ys => by
      simp only [dedupFirst, List.mem_cons, List.mem_filter, dedupFirst_mem x ys,
        ne_eq, decide_eq_true_eq]
      by_cases h : x = y <;> simp [h]

theorem dedupFirst_nodup {α : Type} [DecidableEq α] : ∀ (l : List α), (dedupFirst l).Nodup
  | [] => by simp [dedupFirst]
  | y :: ys => by
      simp only [dedupFirst, List.nodup_cons]
      refine ⟨?_, List.Nodup.filter _ (dedupFirst_nodup ys)⟩
      simp [List.mem_filter]

theorem sortCells_perm (l : List Cell) : List.Perm (sortCells l) l :=
  List.perm_insertionSort _ l

theorem sortCells_mem {k : Cell} {l : List Cell} : k ∈ sortCells l ↔ k ∈ l :=
  (sortCells_perm l).mem_iff

theorem sortCells_nodup {l : List Cell} (h : l.Nodup) : (sortCells l).Nodup :=
  (sortCells_perm l).nodup_iff.mpr h

theorem charListLe_total : ∀ (as bs : List Char),
    charListLe as bs = true ∨ charListLe bs as = true := by
  intro as
  induction as with
  | nil => intro bs; exact Or.inl rfl
  | cons a as ih =>
      intro bs
      cases bs with
      | nil => exact Or.inr rfl
      | cons b bs =>
          simp only [charListLe]
          rcases Nat.lt_trichotomy a.toNat b.toNat with h | h | h
          · left; rw [if_pos h]
          · have hab : ¬ a.toNat < b.toNat := by omega
            have hba : ¬ b.toNat < a.toNat := by omega
            rw [if_neg hab, if_neg hba, if_neg hba, if_neg hab]
            exact ih bs
          · right; rw [if_pos h]

theorem charListLe_trans : ∀ (as bs cs : List Char),
    charListLe as bs = true → charListLe bs cs = true → charListLe as cs = true := by
  intro as
  induction as with
  | nil => intro bs cs _ _; rfl
  | cons a as ih =>
      intro bs cs h1 h2
      cases bs with
      | nil => simp [charListLe] at h1
      | cons b bs =>
          cases cs with
          | nil => simp [charListLe] at h2
          | cons c cs =>
              simp only [charListLe] at h1 h2 ⊢
              rcases Nat.lt_trichotomy a.toNat b.toNat with hab | hab | hab
              · rcases Nat.lt_trichotomy b.toNat c.toNat with hbc | hbc | hbc
                · rw [if_pos (by omega : a.toNat < c.toNat)]
                · rw [if_pos (by omega : a.toNat < c.toNat)]
                · rw [if_neg (by omega : ¬ b.toNat < c.toNat),
                      if_pos (by omega : c.toNat < b.toNat)] at h2
                  cases h2
              · rcases Nat.lt_trichotomy b.toNat c.toNat with hbc | hbc | hbc
                · rw [if_pos (by omega : a.toNat < c.toNat)]
                · rw [if_neg (by omega : ¬ a.toNat < c.toNat),
                      if_neg (by omega : ¬ c.toNat < a.toNat)]
                  rw [if_neg (by omega : ¬ a.toNat < b.toNat),
                      if_neg (by omega : ¬ b.toNat < a.toNat)] at h1
                  rw [if_neg (by omega : ¬ b.toNat < c.toNat),
                      if_neg (by omega : ¬ c.toNat < b.toNat)] at h2
                  exact ih bs cs h1 h2
                · rw [if_neg (by omega : ¬ b.toNat < c.toNat),
                      if_pos (by omega : c.toNat < b.toNat)] at h2
                  cases h2
              · rw [if_neg (by omega : ¬ a.toNat < b.toNat),
                    if_pos (by omega : b.toNat < a.toNat)] at h1
                cases h1

instance : IsTotal Cell cellLeP :=
  ⟨by
    intro a b
    cases a <;> cases b <;> simp [cellLeP, cellLe]
    · exact charListLe_total _ _
    · exact le_total _ _⟩

instance : IsTrans Cell cellLeP :=
  ⟨by
    intro a b c hab hbc
    cases a <;> cases b <;> cases c <;> simp_all [cellLeP, cellLe]
    · exact charListLe_trans _ _ _ hab hbc
    · exact le_trans hab hbc⟩

theorem sortCells_sorted (l : List Cell) : List.Sorted cellLeP (sortCells l) :=
  List.sorted_insertionSort _ l

theorem merge_eq_core (rows : List URow) :
    merge_units_to_plants rows = mergeCore (resolvedKeyFn rows) rows := by
  cases rows <;> rfl

theorem mem_groupOf {kf : URow → Option Cell} {rows : List URow} {k : Cell} {r : URow} :
    r ∈ groupOf kf rows k ↔ r ∈ rows ∧ kf r = some k := by
  simp [groupOf, List.mem_filter]

/-- Every record of `merge_units_to_plants` is the aggregation of a
non-empty group of input rows sharing a (non-null) resolved key. -/
theorem merge_shape {rows : List URow} {p : PRow} (hp : p ∈ merge_units_to_plants rows) :
    ∃ k : Cell, (∃ r ∈ rows, resolvedKeyFn rows r = some k) ∧
      groupOf (resolvedKeyFn rows) rows k ≠ [] ∧
      p = aggGroup (groupOf (resolvedKeyFn rows) rows k) := by
  rw [merge_eq_core] at hp
  simp only [mergeCore, List.mem_map] at hp
  obtain ⟨k, hk, hkp⟩ := hp
  rw [sortCells_mem, dedupFirst_mem, List.mem_filterMap] at hk
  obtain ⟨r, hr, hkr⟩ := hk
  have hgr : r ∈ groupOf (resolvedKeyFn rows) rows k := mem_groupOf.mpr ⟨hr, hkr⟩
  exact ⟨k, ⟨r, hr, hkr⟩, List.ne_nil_of_mem hgr, hkp.symm⟩

theorem firstAgg_map_eq {β : Type} (g : List URow) (f : URow → Option β) :
    firstAgg (g.map f) = (g.filterMap f).head? := by
  simp [firstAgg, List.filterMap_map, Function.comp]

theorem head?_filterMap_eq_some {β : Type} {g : List URow} {f : URow → Option β} {k : β}
    (hne : g ≠ []) (hall : ∀ r ∈ g, f r = some k) : (g.filterMap f).head? = some k := by
  cases g with
  | nil => cases hne rfl
  | cons r rs => simp [List.filterMap_cons, hall r (List.mem_cons_self r rs)]

theorem head?_filterMap_eq_none {β : Type} {g : List URow} {f : URow → Option β}
    (hall : ∀ r ∈ g, f r = none) : (g.filterMap f).head? = none := by
  have h : g.filterMap f = [] := List.filterMap_eq_nil_iff.mpr hall
  rw [h]; rfl

theorem head?_filterMap_isSome {β : Type} {g : List URow} {f : URow → Option β}
    (hne : g ≠ []) (hall : ∀ r ∈ g, (f r).isSome) : ((g.filterMap f).head?).isSome := by
  cases g with
  | nil => cases hne rfl
  | cons r rs =>
      obtain ⟨c, hc⟩ := Option.isSome_iff_exists.mp (hall r (List.mem_cons_self r rs))
      simp [List.filterMap_cons, hc]

theorem sum_filterMap_getD : ∀ (l : List (Option Int)),
    (l.filterMap id).sum = (l.map (fun o => o.getD 0)).sum
  | [] => rfl
  | o :: t => by cases o <;> simp [List.filterMap_cons, sum_filterMap_getD t]

theorem filter_erase_of_not {l : List URow} {r : URow} {p : URow → Bool}
    (hp : p r = false) : (l.erase r).filter p = l.filter p := by
  induction l with
  | nil => rfl
  | cons x xs ih =>
      rw [List.erase_cons]
      by_cases hx : x = r
      · subst hx; simp [List.filter_cons, hp]
      · simp only [beq_iff_eq, hx, if_false, List.filter_cons, ih]

theorem filterMap_erase_of_none {l : List URow} {r : URow} {kf : URow → Option Cell}
    (hk : kf r = none) : (l.erase r).filterMap kf = l.filterMap kf := by
  induction l with
  | nil => rfl
  | cons x xs ih =>
      rw [List.erase_cons]
      by_cases hx : x = r
      · subst hx; simp [List.filterMap_cons, hk]
      · simp only [beq_iff_eq, hx, if_false, List.filterMap_cons, ih]

theorem resolvedKeyFn_erase {rows : List URow} {r : URow} (hr : r ∈ rows)
    (hk : resolvedKeyFn rows r = none) :
    resolvedKeyFn (rows.erase r) = resolvedKeyFn rows := by
  by_cases hmode : rows.all (fun r => decide (r.plant_name = none)) = true
  · have h2 : (rows.erase r).all (fun r => decide (r.plant_name = none)) = true := by
      rw [List.all_eq_true] at hmode ⊢
      exact fun x hx => hmode x ((List.erase_sublist r rows).subset hx)
    rw [resolvedKeyFn, resolvedKeyFn, if_pos hmode, if_pos h2]
  · rw [resolvedKeyFn, if_neg hmode] at hk
    have h2 : ¬ (rows.erase r).all (fun r => decide (r.plant_name = none)) = true := by
      intro hall
      apply hmode
      rw [List.all_eq_true] at hall ⊢
      intro x hx
      by_cases hxr : x = r
      · subst hxr; simp [hk]
      · exact hall x ((List.mem_erase_of_ne hxr).mpr hx)
    rw [resolvedKeyFn, resolvedKeyFn, if_neg hmode, if_neg h2]

theorem dedupUnits_subset :
    ∀ (seen : List (Option Cell × Option Cell)) (l : List URow) (r : URow),
      r ∈ dedupUnits seen l → r ∈ l := by
  intro seen l
  induction l generalizing seen with
  | nil => intro r hr; simp [dedupUnits] at hr
  | cons x xs ih =>
      intro r hr
      simp only [dedupUnits] at hr
      by_cases hm : (x.id, x.unit_id) ∈ seen
      · rw [if_pos hm] at hr; exact List.mem_cons_of_mem x (ih _ r hr)
      · rw [if_neg hm] at hr
        rcases List.mem_cons.mp hr with h | h
        · exact h ▸ List.mem_cons_self x xs
        · exact List.mem_cons_of_mem x (ih _ r h)

theorem cellInRange_shape {o : Option Cell} {lo hi : Int} (h : cellInRange o lo hi = true) :
    ∃ q, o = some (.num q) := by
  cases o with
  | none => simp [cellInRange] at h
  | some c =>
      cases c with
      | str s => simp [cellInRange] at h
      | num q => exact ⟨q, rfl⟩

theorem keepRow_shape {r : URow} (h : keepRow r = true) :
    ∃ s, r.status = some (.str s) ∧ s ∈ keep_statuses := by
  cases hs : r.status with
  | none => simp [keepRow, hs] at h
  | some c =>
      cases c with
      | num q => simp [keepRow, hs] at h
      | str s =>
          simp only [keepRow, hs, decide_eq_true_eq] at h
          exact ⟨s, rfl, h⟩

theorem cleanUnits_good (cfg : ColsCfg) (country : String) (f : RawFrame) :
    ∀ r ∈ cleanUnits cfg country f, GoodRow r := by
  intro r hr
  simp only [cleanUnits] at hr
  rw [List.mem_filter] at hr
  obtain ⟨hd, hkeep⟩ := hr
  obtain ⟨s, hs, hsk⟩ := keepRow_shape hkeep
  have hr4 := dedupUnits_subset _ _ _ hd
  rw [List.mem_map] at hr4
  obtain ⟨r3, hr3, hr3eq⟩ := hr4
  rw [List.mem_filter] at hr3
  obtain ⟨_, hrange⟩ := hr3
  rw [Bool.and_eq_true] at hrange
  obtain ⟨hlat, hlon⟩ := hrange
  obtain ⟨ql, hql⟩ := cellInRange_shape hlat
  obtain ⟨qn, hqn⟩ := cellInRange_shape hlon
  refine ⟨?_, ?_, s, hs, hsk⟩
  · rw [← hr3eq]
    show (r3.lat).isSome
    rw [hql]; rfl
  · rw [← hr3eq]
    show (r3.lon).isSome
    rw [hqn]; rfl

theorem aggGroup_key_plant {rows : List URow} {k : Cell}
    (hmode : ¬ rows.all (fun r => decide (r.plant_name = none)) = true)
    (hne : groupOf (resolvedKeyFn rows) rows k ≠ []) :
    (aggGroup (groupOf (resolvedKeyFn rows) rows k)).plant_name = some k := by
  have hkf : resolvedKeyFn rows = (·.plant_name) := by
    rw [resolvedKeyFn, if_neg hmode]
  show firstAgg ((groupOf (resolvedKeyFn rows) rows k).map (·.plant_name)) = some k
  rw [firstAgg_map_eq]
  apply head?_filterMap_eq_some hne
  intro r hrg
  have h := (mem_groupOf.mp hrg).2
  rw [hkf] at h
  exact h

theorem aggGroup_key_id {rows : List URow} {k : Cell}
    (hmode : rows.all (fun r => decide (r.plant_name = none)) = true)
    (hne : groupOf (resolvedKeyFn rows) rows k ≠ []) :
    (aggGroup (groupOf (resolvedKeyFn rows) rows k)).id = some k := by
  have hkf : resolvedKeyFn rows = (·.id) := by
    rw [resolvedKeyFn, if_pos hmode]
  show firstAgg ((groupOf (resolvedKeyFn rows) rows k).map (·.id)) = some k
  rw [firstAgg_map_eq]
  apply head?_filterMap_eq_some hne
  intro r hrg
  have h := (mem_groupOf.mp hrg).2
  rw [hkf] at h
  exact h

theorem groupOf_ne_nil_of_mem_keys {rows : List URow} {k : Cell}
    (hk : k ∈ sortCells (dedupFirst (rows.filterMap (resolvedKeyFn rows)))) :
    groupOf (resolvedKeyFn rows) rows k ≠ [] := by
  rw [sortCells_mem, dedupFirst_mem, List.mem_filterMap] at hk
  obtain ⟨r, hr, hkr⟩ := hk
  exact List.ne_nil_of_mem (mem_groupOf.mpr ⟨hr, hkr⟩)

theorem merge_good_pairwise (rows : List URow) :
    List.Pairwise (fun p q : PRow => (p.id, p.plant_name) ≠ (q.id, q.plant_name))
      (merge_units_to_plants rows) := by
  rw [merge_eq_core]
  unfold mergeCore
  rw [List.pairwise_map]
  have hnodup : (sortCells (dedupFirst (rows.filterMap (resolvedKeyFn rows)))).Nodup :=
    sortCells_nodup (dedupFirst_nodup _)
  apply List.Pairwise.imp_of_mem ?_ hnodup
  intro a b ha hb hab
  have hga := groupOf_ne_nil_of_mem_keys ha
  have hgb := groupOf_ne_nil_of_mem_keys hb
  by_cases hmode : rows.all (fun r => decide (r.plant_name = none)) = true
  · have h1 := aggGroup_key_id hmode hga
    have h2 := aggGroup_key_id hmode hgb
    intro heq
    apply hab
    have h3 := congrArg Prod.fst heq
    simp only at h3
    rw [h1, h2] at h3
    exact Option.some.inj h3
  · have h1 := aggGroup_key_plant hmode hga
    have h2 := aggGroup_key_plant hmode hgb
    intro heq
    apply hab
    have h3 := congrArg Prod.snd heq
    simp only at h3
    rw [h1, h2] at h3
    exact Option.some.inj h3

theorem aggGroup_lat_isSome {rows : List URow} (hgood : ∀ r ∈ rows, GoodRow r)
    {k : Cell} (hne : groupOf (resolvedKeyFn rows) rows k ≠ []) :
    ((aggGroup (groupOf (resolvedKeyFn rows) rows k)).lat).isSome := by
  show (firstAgg ((groupOf (resolvedKeyFn rows) rows k).map (·.lat))).isSome
  rw [firstAgg_map_eq]
  apply head?_filterMap_isSome hne
  intro r hrg
  exact (hgood r (mem_groupOf.mp hrg).1).1

theorem aggGroup_lon_isSome {rows : List URow} (hgood : ∀ r ∈ rows, GoodRow r)
    {k : Cell} (hne : groupOf (resolvedKeyFn rows) rows k ≠ []) :
    ((aggGroup (groupOf (resolvedKeyFn rows) rows k)).lon).isSome := by
  show (firstAgg ((groupOf (resolvedKeyFn rows) rows k).map (·.lon))).isSome
  rw [firstAgg_map_eq]
  apply head?_filterMap_isSome hne
  intro r hrg
  exact (hgood r (mem_groupOf.mp hrg).1).2.1

theorem aggGroup_status_join {rows : List URow} (hgood : ∀ r ∈ rows, GoodRow r)
    {k : Cell} (hne : groupOf (resolvedKeyFn rows) rows k ≠ []) :
    ∃ l : List String, l ≠ [] ∧ (∀ s ∈ l, s ∈ keep_statuses) ∧
      (aggGroup (groupOf (resolvedKeyFn rows) rows k)).status = String.intercalate ", " l := by
  refine ⟨(dedupFirst ((groupOf (resolvedKeyFn rows) rows k).filterMap
    (fun r : URow => r.status))).map cellToString, ?_, ?_, rfl⟩
  · obtain ⟨r, hrg⟩ := List.exists_mem_of_ne_nil _ hne
    obtain ⟨_, _, s, hs, _⟩ := hgood r (mem_groupOf.mp hrg).1
    have h1 : Cell.str s ∈ (groupOf (resolvedKeyFn rows) rows k).filterMap
        (fun r : URow => r.status) :=
      List.mem_filterMap.mpr ⟨r, hrg, by rw [hs]⟩
    have h2 := (dedupFirst_mem _ _).mpr h1
    exact List.ne_nil_of_mem (List.mem_map_of_mem cellToString h2)
  · intro x hx
    rw [List.mem_map] at hx
    obtain ⟨c, hc, hceq⟩ := hx
    rw [dedupFirst_mem, List.mem_filterMap] at hc
    obtain ⟨r, hrg, hrs⟩ := hc
    obtain ⟨_, _, s, hs, hsk⟩ := hgood r (mem_groupOf.mp hrg).1
    rw [hs] at hrs
    have hcs : c = .str s := (Option.some.inj hrs).symm
    rw [hcs] at hceq
    simp only [cellToString] at hceq
    rw [← hceq]
    exact hsk

/-! ## Claims -/

/-- C2 counterexample: the Cleaner DOES raise when a configured source
column is missing from the input — on the non-empty frame `fBad`, which
lacks the configured `id` source column, `clean_gas_plant_data` fails with
a KeyError rather than returning normally. -/
theorem cleaner_missing_column_raises :
    fBad.rows.length = 1 ∧
    clean_gas_plant_data cfg0 "Vietnam" fBad =
      Except.error "KeyError: columns not in index" :=
  ⟨rfl, rfl⟩

/-- C2 (amended): on an empty input (zero rows, schema present) the
Cleaner returns an empty sequence without raising, and the Aggregator maps
an empty input to an empty output; a missing configured source column,
however, is an error. -/
theorem cleaner_empty_input_ok (cfg : ColsCfg) (country : String) (f : RawFrame)
    (h1 : "Country/Area" ∈ f.cols)
    (h2 : ∀ c ∈ selectedColumns cfg, c ∈ f.cols)
    (h3 : f.rows = []) :
    clean_gas_plant_data cfg country f = Except.ok [] ∧
    merge_units_to_plants [] = [] := by
  refine ⟨?_, rfl⟩
  have h2b : (selectedColumns cfg).all (fun c => decide (c ∈ f.cols)) = true := by
    rw [List.all_eq_true]
    intro c hc
    exact decide_eq_true (h2 c hc)
  unfold clean_gas_plant_data
  rw [if_pos h1, if_pos h2b]
  have hcl : cleanUnits cfg country f = [] := by
    simp [cleanUnits, h3, dedupUnits]
  rw [hcl]
  rfl

/-- Witness for C2: the hypotheses of `cleaner_empty_input_ok` hold for
the concrete empty frame `fEmpty`. -/
theorem cleaner_empty_input_ok_witness :
    clean_gas_plant_data cfg0 "Vietnam" fEmpty = Except.ok [] ∧
    merge_units_to_plants [] = [] :=
  cleaner_empty_input_ok cfg0 "Vietnam" fEmpty (by decide) (by decide) rfl

/-- C3: each Aggregator record's `capacity_mw` is the arithmetic sum of
its group's `capacity_mw` values with null treated as 0, and an all-null
group sums to 0 (not null). -/
theorem aggregator_capacity_sum (rows : List URow) (p : PRow)
    (hp : p ∈ merge_units_to_plants rows) :
    ∃ k : Cell, (∃ r ∈ rows, resolvedKeyFn rows r = some k) ∧
      p.capacity_mw = ((groupOf (resolvedKeyFn rows) rows k).map
        (fun r => (r.capacity_mw).getD 0)).sum ∧
      ((∀ r ∈ groupOf (resolvedKeyFn rows) rows k, r.capacity_mw = none) →
        p.capacity_mw = 0) := by
  obtain ⟨k, hw, hne, hpe⟩ := merge_shape hp
  subst hpe
  refine ⟨k, hw, ?_, ?_⟩
  · have h := sum_filterMap_getD
      ((groupOf (resolvedKeyFn rows) rows k).map (fun r => r.capacity_mw))
    rw [List.filterMap_map, List.map_map] at h
    exact h
  · intro hall
    show ((groupOf (resolvedKeyFn rows) rows k).filterMap (fun r => r.capacity_mw)).sum = 0
    rw [List.filterMap_eq_nil_iff.mpr hall]
    rfl

/-- Witness for C3 at the two-unit group `rows3w` (one null capacity). -/
theorem aggregator_capacity_sum_witness :
    p3w ∈ merge_units_to_plants rows3w ∧
    ∃ k : Cell, (∃ r ∈ rows3w, resolvedKeyFn rows3w r = some k) ∧
      p3w.capacity_mw = ((groupOf (resolvedKeyFn rows3w) rows3w k).map
        (fun r => (r.capacity_mw).getD 0)).sum ∧
      ((∀ r ∈ groupOf (resolvedKeyFn rows3w) rows3w k, r.capacity_mw = none) →
        p3w.capacity_mw = 0) :=
  ⟨by decide, aggregator_capacity_sum rows3w p3w (by decide)⟩

/-- C4: on the two-unit scenario input the pipeline yields exactly one
record with capacity 150, status "operating, construction", unit_id
"A, B" and num_units 2. -/
theorem pipeline_two_unit_scenario :
    (clean_gas_plant_data cfg0 "Vietnam" f4).map (List.map (fun p =>
      (p.capacity_mw, p.status, p.unit_id, p.num_units))) =
    Except.ok [((150 : Int), "operating, construction", "A, B", (2 : Nat))] := by
  rfl

/-- C8: each record's `num_units` is the number of unit rows of its group
(before any deduplication of collected value lists), and is at least 1. -/
theorem aggregator_num_units_count (rows : List URow) (p : PRow)
    (hp : p ∈ merge_units_to_plants rows) :
    ∃ k : Cell, (∃ r ∈ rows, resolvedKeyFn rows r = some k) ∧
      p.num_units = (groupOf (resolvedKeyFn rows) rows k).length ∧
      1 ≤ p.num_units := by
  obtain ⟨k, hw, hne, hpe⟩ := merge_shape hp
  subst hpe
  exact ⟨k, hw, rfl, List.length_pos.mpr hne⟩

/-- Witness for C8 at the three-row, two-plant input `rows8w`. -/
theorem aggregator_num_units_count_witness :
    p8w ∈ merge_units_to_plants rows8w ∧
    ∃ k : Cell, (∃ r ∈ rows8w, resolvedKeyFn rows8w r = some k) ∧
      p8w.num_units = (groupOf (resolvedKeyFn rows8w) rows8w k).length ∧
      1 ≤ p8w.num_units :=
  ⟨by decide, aggregator_num_units_count rows8w p8w (by decide)⟩

/-- C9: the raw-file reader dispatches `.xlsx`/`.xls` to the Excel reader
and `.csv` to the CSV reader, and fails with the unsupported-format error
on every other extension. -/
theorem reader_extension_dispatch (s : String)
    (h : s ∉ [".xlsx", ".xls", ".csv"]) :
    read_gem_file s = Except.error (ReadError.unsupportedFormat s) ∧
    read_gem_file ".xlsx" = Except.ok Reader.excel ∧
    read_gem_file ".xls" = Except.ok Reader.excel ∧
    read_gem_file ".csv" = Except.ok Reader.csv := by
  refine ⟨?_, rfl, rfl, rfl⟩
  have h3 : ¬ (s = ".xlsx" ∨ s = ".xls" ∨ s = ".csv") := by simpa using h
  have hA : ¬ s ∈ [".xlsx", ".xls"] := by
    simp only [List.mem_cons, List.not_mem_nil, or_false]
    tauto
  have hB : ¬ s ∈ [".csv"] := by
    simp only [List.mem_cons, List.not_mem_nil, or_false]
    tauto
  rw [read_gem_file, if_neg hA, if_neg hB]

/-- Witness for C9 at the unsupported extension `.txt`. -/
theorem reader_extension_dispatch_witness :
    ".txt" ∉ [".xlsx", ".xls", ".csv"] ∧
    (read_gem_file ".txt" = Except.error (ReadError.unsupportedFormat ".txt") ∧
     read_gem_file ".xlsx" = Except.ok Reader.excel ∧
     read_gem_file ".xls" = Except.ok Reader.excel ∧
     read_gem_file ".csv" = Except.ok Reader.csv) :=
  ⟨by decide, reader_extension_dispatch ".txt" (by decide)⟩

/-- C10: a row whose resolved grouping key is null contributes nothing to
the Aggregator's output: removing it leaves the output unchanged (it joins
no group's sum, lists, or count, and no record is emitted for it). -/
theorem aggregator_drops_null_key_rows (rows : List URow) (r : URow)
    (hr : r ∈ rows) (hk : resolvedKeyFn rows r = none) :
    merge_units_to_plants (rows.erase r) = merge_units_to_plants rows := by
  rw [merge_eq_core, merge_eq_core, resolvedKeyFn_erase hr hk]
  unfold mergeCore
  rw [filterMap_erase_of_none hk]
  apply List.map_congr_left
  intro k hkmem
  have hgroup : groupOf (resolvedKeyFn rows) (rows.erase r) k =
      groupOf (resolvedKeyFn rows) rows k := by
    unfold groupOf
    apply filter_erase_of_not
    simp [hk]
  rw [hgroup]

/-- Witness for C10: dropping the null-key row `uNullKey` from `rows10w`
leaves the Aggregator output unchanged. -/
theorem aggregator_drops_null_key_rows_witness :
    uNullKey ∈ rows10w ∧ resolvedKeyFn rows10w uNullKey = none ∧
    merge_units_to_plants (rows10w.erase uNullKey) = merge_units_to_plants rows10w :=
  ⟨by decide, by decide,
   aggregator_drops_null_key_rows rows10w uNullKey (by decide) (by decide)⟩

/-- C1 counterexample: the Cleaner's returned value (which is the merged
plant table) contains a record whose status "operating, construction"
lies outside the keep-list, and two records sharing the `(id, unit_id)`
pair `(1, "A, B")`. -/
theorem cleaner_output_claim_counterexample :
    (clean_gas_plant_data cfg0 "Vietnam" f1).map
      (List.map (fun p => (p.status, p.id, p.unit_id))) =
      Except.ok [("operating, construction", some (Cell.num 1), "A, B"),
                 ("operating", some (Cell.num 1), "A, B")] ∧
    ¬ "operating, construction" ∈ keep_statuses :=
  ⟨rfl, by decide⟩

/-- C1 (amended): every record returned by `clean_gas_plant_data` has
non-null latitude and longitude, and its status is a comma-join of one or
more keep-list statuses (a bare keep-list status when the plant's units
agree); distinct records differ in their `(id, plant_name)` pair, while
the original `(id, unit_id)` uniqueness holds of the unit rows entering
aggregation, not of the merged records. -/
theorem cleaner_output_shape (cfg : ColsCfg) (country : String) (f : RawFrame)
    (out : List PRow) (h : clean_gas_plant_data cfg country f = Except.ok out) :
    (∀ p ∈ out, p.lat.isSome ∧ p.lon.isSome ∧
      ∃ l : List String, l ≠ [] ∧ (∀ s ∈ l, s ∈ keep_statuses) ∧
        p.status = String.intercalate ", " l) ∧
    List.Pairwise (fun p q : PRow => (p.id, p.plant_name) ≠ (q.id, q.plant_name)) out := by
  have hout : out = merge_units_to_plants (cleanUnits cfg country f) := by
    unfold clean_gas_plant_data at h
    by_cases h1 : "Country/Area" ∈ f.cols
    · rw [if_pos h1] at h
      by_cases h2 : (selectedColumns cfg).all (fun c => decide (c ∈ f.cols)) = true
      · rw [if_pos h2] at h
        exact (Except.ok.inj h).symm
      · rw [if_neg h2] at h
        exact absurd h (by simp)
    · rw [if_neg h1] at h
      exact absurd h (by simp)
  subst hout
  refine ⟨?_, merge_good_pairwise _⟩
  intro p hp
  obtain ⟨k, hw, hne, hpe⟩ := merge_shape hp
  subst hpe
  exact ⟨aggGroup_lat_isSome (cleanUnits_good cfg country f) hne,
         aggGroup_lon_isSome (cleanUnits_good cfg country f) hne,
         aggGroup_status_join (cleanUnits_good cfg country f) hne⟩

/-- Witness for C1 on the single-row frame `fW1`. -/
theorem cleaner_output_shape_witness :
    (∀ p ∈ outW1, p.lat.isSome ∧ p.lon.isSome ∧
      ∃ l : List String, l ≠ [] ∧ (∀ s ∈ l, s ∈ keep_statuses) ∧
        p.status = String.intercalate ", " l) ∧
    List.Pairwise (fun p q : PRow => (p.id, p.plant_name) ≠ (q.id, q.plant_name)) outW1 :=
  cleaner_output_shape cfg0 "Vietnam" fW1 outW1 rfl

/-- C5 counterexample: with plant names first seen in the order b, a, the
Aggregator emits a's record before b's — sorted key order, not first-seen
group order. -/
theorem aggregator_order_counterexample :
    (merge_units_to_plants rows5c).map (fun p => p.plant_name) =
      [some (Cell.str "a"), some (Cell.str "b")] ∧
    rows5c.map (fun r => r.plant_name) = [some (Cell.str "b"), some (Cell.str "a")] ∧
    ¬ ((merge_units_to_plants rows5c).map (outKeySel rows5c) =
        (dedupFirst (rows5c.filterMap (resolvedKeyFn rows5c))).map some) :=
  ⟨rfl, rfl, by decide⟩

/-- C5 (amended): the Aggregator emits one record per distinct non-null
grouping-key value, ordered by ascending key value (pandas `groupby`
sorts group keys), not by first appearance. -/
theorem aggregator_sorted_key_order (rows : List URow) :
    List.Pairwise optCellLe ((merge_units_to_plants rows).map (outKeySel rows)) ∧
    List.Perm ((merge_units_to_plants rows).map (outKeySel rows))
      ((dedupFirst (rows.filterMap (resolvedKeyFn rows))).map some) := by
  have hsel : (merge_units_to_plants rows).map (outKeySel rows) =
      (sortCells (dedupFirst (rows.filterMap (resolvedKeyFn rows)))).map some := by
    rw [merge_eq_core]
    unfold mergeCore
    rw [List.map_map]
    apply List.map_congr_left
    intro k hk
    have hne := groupOf_ne_nil_of_mem_keys hk
    show outKeySel rows (aggGroup (groupOf (resolvedKeyFn rows) rows k)) = some k
    unfold outKeySel
    by_cases hmode : rows.all (fun r => decide (r.plant_name = none)) = true
    · rw [if_pos hmode]; exact aggGroup_key_id hmode hne
    · rw [if_neg hmode]; exact aggGroup_key_plant hmode hne
  constructor
  · rw [hsel, List.pairwise_map]
    apply List.Pairwise.imp ?_ (sortCells_sorted _)
    intro a b hab
    exact ⟨a, b, rfl, rfl, hab⟩
  · rw [hsel]
    exact (sortCells_perm _).map some

/-- C6 counterexample: in `rows6c` the group's first row has a null city
but the emitted record's city is X: the `first` reducer skips nulls
rather than taking the first row's value even when null. -/
theorem aggregator_first_skips_null_counterexample :
    (rows6c.map (fun r => r.city)).head? = some none ∧
    (merge_units_to_plants rows6c).map (fun p => p.city) = [some (Cell.str "X")] ∧
    ¬ ((merge_units_to_plants rows6c).map (fun p => p.city) = [none]) :=
  ⟨rfl, rfl, by decide⟩

/-- C6 (amended): every `first`-rule column takes the group's first
non-null value in group order, and is null exactly when every value in
the group is null. -/
theorem aggregator_first_rule_nonnull (rows : List URow) (p : PRow)
    (hp : p ∈ merge_units_to_plants rows) :
    ∃ k : Cell, (∃ r ∈ rows, resolvedKeyFn rows r = some k) ∧
      p.id = ((groupOf (resolvedKeyFn rows) rows k).filterMap (fun r => r.id)).head? ∧
      p.plant_name =
        ((groupOf (resolvedKeyFn rows) rows k).filterMap (fun r => r.plant_name)).head? ∧
      p.plant_name_local =
        ((groupOf (resolvedKeyFn rows) rows k).filterMap
          (fun r => r.plant_name_local)).head? ∧
      p.lat = ((groupOf (resolvedKeyFn rows) rows k).filterMap (fun r => r.lat)).head? ∧
      p.lon = ((groupOf (resolvedKeyFn rows) rows k).filterMap (fun r => r.lon)).head? ∧
      p.city = ((groupOf (resolvedKeyFn rows) rows k).filterMap (fun r => r.city)).head? ∧
      p.province =
        ((groupOf (resolvedKeyFn rows) rows k).filterMap (fun r => r.province)).head? ∧
      p.region =
        ((groupOf (resolvedKeyFn rows) rows k).filterMap (fun r => r.region)).head? ∧
      ((∀ r ∈ groupOf (resolvedKeyFn rows) rows k, r.city = none) → p.city = none) := by
  obtain ⟨k, hw, hne, hpe⟩ := merge_shape hp
  subst hpe
  refine ⟨k, hw, firstAgg_map_eq _ _, firstAgg_map_eq _ _, firstAgg_map_eq _ _,
    firstAgg_map_eq _ _, firstAgg_map_eq _ _, firstAgg_map_eq _ _, firstAgg_map_eq _ _,
    firstAgg_map_eq _ _, ?_⟩
  intro hall
  show firstAgg ((groupOf (resolvedKeyFn rows) rows k).map (·.city)) = none
  rw [firstAgg_map_eq]
  exact head?_filterMap_eq_none hall

/-- Witness for C6 on the one-row group `rows6w`. -/
theorem aggregator_first_rule_nonnull_witness :
    p6w ∈ merge_units_to_plants rows6w ∧
    ∃ k : Cell, (∃ r ∈ rows6w, resolvedKeyFn rows6w r = some k) ∧
      p6w.id = ((groupOf (resolvedKeyFn rows6w) rows6w k).filterMap
        (fun r => r.id)).head? ∧
      p6w.plant_name = ((groupOf (resolvedKeyFn rows6w) rows6w k).filterMap
        (fun r => r.plant_name)).head? ∧
      p6w.plant_name_local = ((groupOf (resolvedKeyFn rows6w) rows6w k).filterMap
        (fun r => r.plant_name_local)).head? ∧
      p6w.lat = ((groupOf (resolvedKeyFn rows6w) rows6w k).filterMap
        (fun r => r.lat)).head? ∧
      p6w.lon = ((groupOf (resolvedKeyFn rows6w) rows6w k).filterMap
        (fun r => r.lon)).head? ∧
      p6w.city = ((groupOf (resolvedKeyFn rows6w) rows6w k).filterMap
        (fun r => r.city)).head? ∧
      p6w.province = ((groupOf (resolvedKeyFn rows6w) rows6w k).filterMap
        (fun r => r.province)).head? ∧
      p6w.region = ((groupOf (resolvedKeyFn rows6w) rows6w k).filterMap
        (fun r => r.region)).head? ∧
      ((∀ r ∈ groupOf (resolvedKeyFn rows6w) rows6w k, r.city = none) →
        p6w.city = none) :=
  ⟨by decide, aggregator_first_rule_nonnull rows6w p6w (by decide)⟩

theorem intList_min?_spec {l : List Int} {q : Int} (h : l.min? = some q) :
    q ∈ l ∧ ∀ x ∈ l, q ≤ x := by
  haveI : Std.Antisymm (fun (a b : Int) => a ≤ b) := ⟨fun h1 h2 => le_antisymm h1 h2⟩
  exact (List.min?_eq_some_iff (fun a => le_refl a) (fun a b => min_choice a b)
    (fun a b c => le_min_iff)).mp h

theorem intList_max?_spec {l : List Int} {q : Int} (h : l.max? = some q) :
    q ∈ l ∧ ∀ x ∈ l, x ≤ q := by
  haveI : Std.Antisymm (fun (a b : Int) => a ≤ b) := ⟨fun h1 h2 => le_antisymm h1 h2⟩
  exact (List.max?_eq_some_iff (fun a => le_refl a) (fun a b => max_choice a b)
    (fun a b c => max_le_iff)).mp h

/-- C7: `start_year` is the minimum over the group's non-null values,
`retired_year` and `planned_retire` the maxima over the group's non-null
values, and each of the three is null when all its values in the group
are null. -/
theorem aggregator_year_min_max (rows : List URow) (p : PRow)
    (hp : p ∈ merge_units_to_plants rows) :
    ∃ k : Cell, (∃ r ∈ rows, resolvedKeyFn rows r = some k) ∧
      p.start_year = ((groupOf (resolvedKeyFn rows) rows k).filterMap
        (fun r => r.start_year)).min? ∧
      p.retired_year = ((groupOf (resolvedKeyFn rows) rows k).filterMap
        (fun r => r.retired_year)).max? ∧
      p.planned_retire = ((groupOf (resolvedKeyFn rows) rows k).filterMap
        (fun r => r.planned_retire)).max? ∧
      (∀ q, p.start_year = some q →
        q ∈ (groupOf (resolvedKeyFn rows) rows k).filterMap (fun r => r.start_year) ∧
        ∀ x ∈ (groupOf (resolvedKeyFn rows) rows k).filterMap (fun r => r.start_year),
          q ≤ x) ∧
      (∀ q, p.retired_year = some q →
        q ∈ (groupOf (resolvedKeyFn rows) rows k).filterMap (fun r => r.retired_year) ∧
        ∀ x ∈ (groupOf (resolvedKeyFn rows) rows k).filterMap (fun r => r.retired_year),
          x ≤ q) ∧
      (∀ q, p.planned_retire = some q →
        q ∈ (groupOf (resolvedKeyFn rows) rows k).filterMap (fun r => r.planned_retire) ∧
        ∀ x ∈ (groupOf (resolvedKeyFn rows) rows k).filterMap
          (fun r => r.planned_retire), x ≤ q) ∧
      ((∀ r ∈ groupOf (resolvedKeyFn rows) rows k, r.start_year = none) →
        p.start_year = none) ∧
      ((∀ r ∈ groupOf (resolvedKeyFn rows) rows k, r.retired_year = none) →
        p.retired_year = none) ∧
      ((∀ r ∈ groupOf (resolvedKeyFn rows) rows k, r.planned_retire = none) →
        p.planned_retire = none) := by
  obtain ⟨k, hw, hne, hpe⟩ := merge_shape hp
  subst hpe
  refine ⟨k, hw, rfl, rfl, rfl, ?_, ?_, ?_, ?_, ?_, ?_⟩
  · intro q hq; exact intList_min?_spec hq
  · intro q hq; exact intList_max?_spec hq
  · intro q hq; exact intList_max?_spec hq
  · intro hall
    show ((groupOf (resolvedKeyFn rows) rows k).filterMap (fun r => r.start_year)).min? = none
    rw [List.filterMap_eq_nil_iff.mpr hall]
    exact List.min?_nil
  · intro hall
    show ((groupOf (resolvedKeyFn rows) rows k).filterMap
      (fun r => r.retired_year)).max? = none
    rw [List.filterMap_eq_nil_iff.mpr hall]
    exact List.max?_nil
  · intro hall
    show ((groupOf (resolvedKeyFn rows) rows k).filterMap
      (fun r => r.planned_retire)).max? = none
    rw [List.filterMap_eq_nil_iff.mpr hall]
    exact List.max?_nil

/-- Witness for C7 on the two-unit group `rows7w` with mixed year data. -/
theorem aggregator_year_min_max_witness :
    p7w ∈ merge_units_to_plants rows7w ∧
    ∃ k : Cell, (∃ r ∈ rows7w, resolvedKeyFn rows7w r = some k) ∧
      p7w.start_year = ((groupOf (resolvedKeyFn rows7w) rows7w k).filterMap
        (fun r => r.start_year)).min? ∧
      p7w.retired_year = ((groupOf (resolvedKeyFn rows7w) rows7w k).filterMap
        (fun r => r.retired_year)).max? ∧
      p7w.planned_retire = ((groupOf (resolvedKeyFn rows7w) rows7w k).filterMap
        (fun r => r.planned_retire)).max? ∧
      (∀ q, p7w.start_year = some q →
        q ∈ (groupOf (resolvedKeyFn rows7w) rows7w k).filterMap (fun r => r.start_year) ∧
        ∀ x ∈ (groupOf (resolvedKeyFn rows7w) rows7w k).filterMap
          (fun r => r.start_year), q ≤ x) ∧
      (∀ q, p7w.retired_year = some q →
        q ∈ (groupOf (resolvedKeyFn rows7w) rows7w k).filterMap (fun r => r.retired_year) ∧
        ∀ x ∈ (groupOf (resolvedKeyFn rows7w) rows7w k).filterMap
          (fun r => r.retired_year), x ≤ q) ∧
      (∀ q, p7w.planned_retire = some q →
        q ∈ (groupOf (resolvedKeyFn rows7w) rows7w k).filterMap
          (fun r => r.planned_retire) ∧
        ∀ x ∈ (groupOf (resolvedKeyFn rows7w) rows7w k).filterMap
          (fun r => r.planned_retire), x ≤ q) ∧
      ((∀ r ∈ groupOf (resolvedKeyFn rows7w) rows7w k, r.start_year = none) →
        p7w.start_year = none) ∧
      ((∀ r ∈ groupOf (resolvedKeyFn rows7w) rows7w k, r.retired_year = none) →
        p7w.retired_year = none) ∧
      ((∀ r ∈ groupOf (resolvedKeyFn rows7w) rows7w k, r.planned_retire = none) →
        p7w.planned_retire = none) :=
  ⟨by decide, aggregator_year_min_max rows7w p7w (by decide)⟩
